import Mathlib

/-!
Verification of the LIDAR map-processing pipeline
(`src/server/python/lidar_processor.py`).

The source operates on dense 2D uint8 images via OpenCV.  We embed an
image as a `Grid α`: explicit width `W`, height `H` and a cell function
(coordinates `(x, y)` with `x < W`, `y < H`; out-of-bounds values are
irrelevant, every operation that looks at a neighbourhood guards its
probes with bounds checks, matching OpenCV's border handling).

All binary (0/255-valued uint8) images are embedded as `Grid Bool` with
`true` standing for value 255 and `false` for value 0.  On binary images
`cv2.bitwise_not` (255 - v) is Boolean negation, `cv2.bitwise_and/or`
are Boolean conjunction/disjunction, `cv2.dilate` with an all-ones
kernel is an OR over the kernel window (out-of-bounds contributes 0,
OpenCV's border convention for dilation) and `cv2.erode` is an AND over
the window (out-of-bounds contributes 255, OpenCV's border convention
for erosion), so the Bool abstraction is exact.
-/

structure Grid (α : Type) where
  W : Nat
  H : Nat
  cell : Nat → Nat → α

def constGrid {α : Type} (W H : Nat) (c : α) : Grid α :=
  ⟨W, H, fun _ _ => c⟩

/-- Clamp an integer coordinate into `[0, n-1]` (replicate-border sampling). -/
def clampN (n : Nat) (v : Int) : Nat :=
  (min (max v 0) ((n : Int) - 1)).toNat

/-- Read a numeric grid at possibly out-of-range integer coordinates,
replicating the border pixel. -/
def sampleR (g : Grid Nat) (x y : Int) : Nat :=
  g.cell (clampN g.W x) (clampN g.H y)

/-- Pointwise complement: `cv2.bitwise_not` on a binary image. -/
def notGrid (g : Grid Bool) : Grid Bool :=
  ⟨g.W, g.H, fun x y => !g.cell x y⟩

/-- Pointwise conjunction: `cv2.bitwise_and` on binary images. -/
def andGrid (a b : Grid Bool) : Grid Bool :=
  ⟨a.W, a.H, fun x y => a.cell x y && b.cell x y⟩

/-- Binary dilation with an all-ones `kh × kw` kernel (kernel height `kh`
rows, width `kw` columns, centre anchor): a cell becomes set when any
in-bounds cell under the window is set.  Mirrors `cv2.dilate` with
`np.ones((kh, kw))`. -/
def dilateB (kh kw : Nat) (g : Grid Bool) : Grid Bool :=
  ⟨g.W, g.H, fun x y =>
    (List.range kh).any fun i =>
      (List.range kw).any fun j =>
        decide ((kh - 1) / 2 ≤ y + i) && decide ((kw - 1) / 2 ≤ x + j) &&
        decide (y + i - (kh - 1) / 2 < g.H) && decide (x + j - (kw - 1) / 2 < g.W) &&
        g.cell (x + j - (kw - 1) / 2) (y + i - (kh - 1) / 2)⟩

/-- Binary erosion with an all-ones `kh × kw` kernel: a cell stays set only
when every in-bounds cell under the window is set (out-of-bounds counts as
set, OpenCV's erosion border convention). -/
def erodeB (kh kw : Nat) (g : Grid Bool) : Grid Bool :=
  ⟨g.W, g.H, fun x y =>
    (List.range kh).all fun i =>
      (List.range kw).all fun j =>
        !(decide ((kh - 1) / 2 ≤ y + i) && decide ((kw - 1) / 2 ≤ x + j) &&
          decide (y + i - (kh - 1) / 2 < g.H) && decide (x + j - (kw - 1) / 2 < g.W)) ||
        g.cell (x + j - (kw - 1) / 2) (y + i - (kh - 1) / 2)⟩

/-- `cv2.morphologyEx(..., cv2.MORPH_CLOSE, np.ones((3, 5)))`:
dilation followed by erosion with the fixed 3×5 kernel (line 37). -/
def closeMorph (g : Grid Bool) : Grid Bool :=
  erodeB 3 5 (dilateB 3 5 g)

/-- All in-bounds coordinates of a `W × H` grid, as a duplicate-free list. -/
def allCells (W H : Nat) : List (Nat × Nat) :=
  (List.range W).flatMap fun x => (List.range H).map fun y => (x, y)

/-- 8-connectivity: the two cells coincide or are horizontal, vertical or
diagonal neighbours. -/
def neighbors8 (p q : Nat × Nat) : Bool :=
  decide (p.1 ≤ q.1 + 1) && decide (q.1 ≤ p.1 + 1) &&
  decide (p.2 ≤ q.2 + 1) && decide (q.2 ≤ p.2 + 1)

/-- One step of connected-component saturation: add every foreground cell
(member of `F`) that is 8-adjacent to the current set `S`. -/
def growOnce (F S : List (Nat × Nat)) : List (Nat × Nat) :=
  S ++ F.filter fun p => decide (¬ p ∈ S) && S.any fun q => neighbors8 q p

/-- Iterate `growOnce` a fixed number of times. -/
def compIter (F : List (Nat × Nat)) : Nat → List (Nat × Nat) → List (Nat × Nat)
  | 0, S => S
  | n + 1, S => compIter F n (growOnce F S)

/-- The 8-connected component of `c` inside the foreground cell list `F`
(empty when `c` is not foreground).  `F.length` saturation steps suffice
since each step that does not reach the fixed point adds a cell.  This is
the component that `cv2.connectedComponentsWithStats(..., connectivity=8)`
labels `c` with; the numeric label ids are irrelevant because the source
only ever uses per-component statistics and masks. -/
def compOf (F : List (Nat × Nat)) (c : Nat × Nat) : List (Nat × Nat) :=
  if c ∈ F then compIter F F.length [c] else []

def listMin : List Nat → Nat
  | [] => 0
  | a :: t => t.foldl Nat.min a

def listMax : List Nat → Nat
  | [] => 0
  | a :: t => t.foldl Nat.max a

/-- Bounding-box width of a cell list: `cv2.CC_STAT_WIDTH`. -/
def bboxW (S : List (Nat × Nat)) : Nat :=
  listMax (S.map Prod.fst) + 1 - listMin (S.map Prod.fst)

/-- Bounding-box height of a cell list: `cv2.CC_STAT_HEIGHT`. -/
def bboxH (S : List (Nat × Nat)) : Nat :=
  listMax (S.map Prod.snd) + 1 - listMin (S.map Prod.snd)

/-- The size gate of lines 63-65: bounding box at most `M` in each
dimension and pixel area (`cv2.CC_STAT_AREA`, the component's cardinality;
components built by `compOf` are duplicate-free) at most `M²`. -/
def gateOK (M : Nat) (S : List (Nat × Nat)) : Bool :=
  decide (max (bboxW S) (bboxH S) ≤ M) && decide (S.length ≤ M * M)

/-- The in-bounds foreground cells of a binary grid. -/
def fgCells (g : Grid Bool) : List (Nat × Nat) :=
  (allCells g.W g.H).filter fun p => g.cell p.1 p.2

/-- Lines 49-51: `filled_gaps = cv2.dilate(inverted, ones(k,5)) AND
bitwise_not(inverted)` — the candidate cells for kernel height `k`,
computed from the untouched `inverted` grid each iteration. -/
def filledGapsGrid (inv : Grid Bool) (k : Nat) : Grid Bool :=
  andGrid (dilateB k 5 inv) (notGrid inv)

/-- Lines 53-68, pointwise: a cell is ORed into `result` during the
iteration for kernel height `k` exactly when it is a candidate
(`filled_gaps` foreground) and the statistics of its 8-connected
component pass the size gate.  The source's loop over the component
labels `1 .. num_gaps-1` ORs exactly the union of the passing
components' masks, which is this cell predicate. -/
def passAt (M : Nat) (inv : Grid Bool) (k : Nat) (x y : Nat) : Bool :=
  let F := fgCells (filledGapsGrid inv k)
  decide ((x, y) ∈ F) && gateOK M (compOf F (x, y))

/-- `MAX_GAP_PIXELS = int(MAX_GAP_SIZE / RESOLUTION_CM_PER_PIXEL)`
(line 40); both constants are nonnegative so `int` truncation is
floor division. -/
def maxGapPixelsOf (maxGapSizeCm resolutionCmPerPixel : Nat) : Nat :=
  maxGapSizeCm / resolutionCmPerPixel

/-- Python `range(start, stop, step)` for a positive step. -/
def pythonRange (start stop stepn : Nat) : List Nat :=
  (List.range ((stop - start + stepn - 1) / stepn)).map fun i => start + stepn * i

/-- The kernel heights swept by line 47:
`range(3, MAX_GAP_PIXELS * 2 + 1, 2)`. -/
def kernelSizes (M : Nat) : List Nat :=
  pythonRange 3 (M * 2 + 1) 2

/-- Comparison definition following the claim's words, not the source:
"the gap-fill sweep evaluates kernel heights k = 3, 5, 7, ... up to and
including 2*maxGapPixels + 1", i.e. the odd numbers from 3 to
`2*M + 1` inclusive.  To be compared with `kernelSizes`. -/
def sweepClaimed (M : Nat) : List Nat :=
  (List.range M).map fun i => 3 + 2 * i

/-- The sweep loop of lines 47-71, with the source's trailing
`if kernel_size >= MAX_GAP_PIXELS * 2: break` executed after each
iteration's body. -/
def sweepGo (M : Nat) (inv : Grid Bool) : List Nat → (Nat → Nat → Bool) → Nat → Nat → Bool
  | [], r => r
  | k :: ks, r =>
    let r2 := fun x y => r x y || passAt M inv k x y
    if M * 2 ≤ k then r2 else sweepGo M inv ks r2

/-- The same sweep with the break removed: a plain fold over the kernel
heights (comparison definition for the break-on-bound question). -/
def sweepNB (M : Nat) (inv : Grid Bool) (ks : List Nat) (r : Nat → Nat → Bool) : Nat → Nat → Bool :=
  ks.foldl (fun rr k => fun x y => rr x y || passAt M inv k x y) r

/-- Lines 40-73, the gap-fill stage: invert the (closed) binary grid,
accumulate passing candidate components over the kernel sweep into
`result` (initialised to `inverted`), and re-invert.  The
`connectedComponentsWithStats` call of line 42 is dead code (its results
are never read) and is omitted. -/
def fillGaps (M : Nat) (g : Grid Bool) : Grid Bool :=
  let inv := notGrid g
  ⟨g.W, g.H, fun x y => !(sweepGo M inv (kernelSizes M) inv.cell x y)⟩

/-- In-bounds FREE cells of a binary occupancy grid (used to talk about
holes: 8-connected components of FREE space). -/
def freeCellsOf (g : Grid Bool) : List (Nat × Nat) :=
  (allCells g.W g.H).filter fun p => !g.cell p.1 p.2

/-- The hole (8-connected FREE component) of a binary grid containing a
given cell. -/
def holeAt (g : Grid Bool) (c : Nat × Nat) : List (Nat × Nat) :=
  compOf (freeCellsOf g) c

/- ----------------------------------------------------------------- -/
/- The rest of the process_map pipeline (lines 29-75).               -/
/- ----------------------------------------------------------------- -/

def insertSorted (a : Nat) : List Nat → List Nat
  | [] => [a]
  | b :: t => if a ≤ b then a :: b :: t else b :: insertSorted a t

def sortNat (l : List Nat) : List Nat :=
  l.foldr insertSorted []

def offsets3 : List (Int × Int) :=
  [(-1, -1), (0, -1), (1, -1), (-1, 0), (0, 0), (1, 0), (-1, 1), (0, 1), (1, 1)]

/-- `cv2.medianBlur(img, 3)` (line 30): the median of the 3×3
neighbourhood of each cell, with replicate border. -/
def medianBlur3 (g : Grid Nat) : Grid Nat :=
  ⟨g.W, g.H, fun x y =>
    (sortNat (offsets3.map fun d => sampleR g ((x : Int) + d.1) ((y : Int) + d.2))).getD 4 0⟩

/-- `cv2.threshold(img_blur, 1, 255, cv2.THRESH_BINARY_INV)` (line 33):
a cell strictly above the threshold 1 maps to 0 (FREE), any other cell
maps to 255 (OCCUPIED). -/
def binarize (g : Grid Nat) : Grid Nat :=
  ⟨g.W, g.H, fun x y => if 1 < g.cell x y then 0 else 255⟩

/-- View a {0, 255}-valued binary image as a `Grid Bool`
(`true` = 255 = OCCUPIED). -/
def toBoolG (g : Grid Nat) : Grid Bool :=
  ⟨g.W, g.H, fun x y => decide (g.cell x y ≠ 0)⟩

/-- `process_map` (lines 6-75) restricted to its grid-to-grid core: the
path handling, directory creation and image decoding of lines 13-25 are
plumbing around an opaque image provider and are not part of the core
(the decoded image is this function's input).  Returns the processed
grid together with the diagnostic messages printed when `debug` is set;
the debug flag guards only the `print` of line 27. -/
def processMap (img : Grid Nat) (debug : Bool) : Grid Bool × List String :=
  let imgBlur := medianBlur3 img
  let binary := binarize imgBlur
  let binaryClean := closeMorph (toBoolG binary)
  let imageClean := fillGaps (maxGapPixelsOf 20 5) binaryClean
  (imageClean,
   if debug then
     ["Loaded image with shape: (" ++ toString img.H ++ ", " ++ toString img.W ++ ")"]
   else [])

/- ----------------------------------------------------------------- -/
/- The edge/line extractor (`canny`, lines 77-121).                  -/
/-                                                                   -/
/- The function body is a sequence of OpenCV library calls            -/
/- (GaussianBlur, Canny, HoughLinesP, cvtColor, line); the library's  -/
/- code is not part of this repository, so those primitives are       -/
/- modelled from the spec (section 4.5) as noted on each definition.  -/
/- The repository-level structure (parameter values, the order of the -/
/- calls, the debug-only prints, drawing the detected segments in     -/
/- green with thickness 2) is taken from the source.                  -/
/- ----------------------------------------------------------------- -/

/-- Modelled from the spec: the fixed 5×5 smoothing blur
("Smooth with a fixed 5×5 blur") as the standard 5×5 binomial
(Gaussian) kernel, weights `(1,4,6,4,1) ⊗ (1,4,6,4,1)` summing to 256,
with replicate-border sampling.  Entries are `(dx, dy, weight)`. -/
def gauss5 : List (Int × Int × Nat) :=
  [(-2, -2, 1), (-1, -2, 4), (0, -2, 6), (1, -2, 4), (2, -2, 1),
   (-2, -1, 4), (-1, -1, 16), (0, -1, 24), (1, -1, 16), (2, -1, 4),
   (-2, 0, 6), (-1, 0, 24), (0, 0, 36), (1, 0, 24), (2, 0, 6),
   (-2, 1, 4), (-1, 1, 16), (0, 1, 24), (1, 1, 16), (2, 1, 4),
   (-2, 2, 1), (-1, 2, 4), (0, 2, 6), (1, 2, 4), (2, 2, 1)]

/-- Modelled from the spec: `cv2.GaussianBlur(gray, (5, 5), 0)`
(line 90) as the normalised weighted sum over the 5×5 window. -/
def gaussianBlur5 (g : Grid Nat) : Grid Nat :=
  ⟨g.W, g.H, fun x y =>
    (gauss5.foldl
      (fun acc e => acc + e.2.2 * sampleR g ((x : Int) + e.1) ((y : Int) + e.2.1)) 0) / 256⟩

/-- Sobel x-derivative taps `(dx, dy, coefficient)` (zero taps omitted). -/
def sobelXs : List (Int × Int × Int) :=
  [(-1, -1, -1), (1, -1, 1), (-1, 0, -2), (1, 0, 2), (-1, 1, -1), (1, 1, 1)]

/-- Sobel y-derivative taps `(dx, dy, coefficient)` (zero taps omitted). -/
def sobelYs : List (Int × Int × Int) :=
  [(-1, -1, -1), (0, -1, -2), (1, -1, -1), (-1, 1, 1), (0, 1, 2), (1, 1, 1)]

def gradX (g : Grid Nat) (x y : Nat) : Int :=
  sobelXs.foldl
    (fun acc e => acc + e.2.2 * (sampleR g ((x : Int) + e.1) ((y : Int) + e.2.1) : Int)) 0

def gradY (g : Grid Nat) (x y : Nat) : Int :=
  sobelYs.foldl
    (fun acc e => acc + e.2.2 * (sampleR g ((x : Int) + e.1) ((y : Int) + e.2.1) : Int)) 0

/-- Modelled from the spec: the gradient magnitude of the two-threshold
edge detector ("gradient-based edge detection"), L1 norm of the Sobel
derivatives. -/
def magAt (g : Grid Nat) (x y : Nat) : Nat :=
  (gradX g x y).natAbs + (gradY g x y).natAbs

/-- Cells whose gradient magnitude exceeds the high threshold 100. -/
def strongCells (g : Grid Nat) : List (Nat × Nat) :=
  (allCells g.W g.H).filter fun p => decide (100 < magAt g p.1 p.2)

/-- Cells whose gradient magnitude reaches the low threshold 30. -/
def weakCells (g : Grid Nat) : List (Nat × Nat) :=
  (allCells g.W g.H).filter fun p => decide (30 ≤ magAt g p.1 p.2)

/-- Modelled from the spec: `cv2.Canny(blurred, 30, 100)` (line 93) as a
two-threshold gradient edge detector with hysteresis — the edge set is
the set of above-low-threshold cells 8-connected to some
above-high-threshold cell. -/
def edgeSetOf (g : Grid Nat) : List (Nat × Nat) :=
  compIter (weakCells g) (weakCells g).length (strongCells g)

/-- The binary edge grid (255 on edge cells, 0 elsewhere). -/
def edgesImg (g : Grid Nat) : Grid Nat :=
  ⟨g.W, g.H, fun x y => if (x, y) ∈ edgeSetOf g then 255 else 0⟩

/-- Lines 90-93: blur, then edge-detect. -/
def edgesStage (img : Grid Nat) : Grid Nat :=
  edgesImg (gaussianBlur5 img)

/-- Squared Euclidean length of the segment between two cells. -/
def segLen2 (p q : Nat × Nat) : Nat :=
  (max p.1 q.1 - min p.1 q.1) ^ 2 + (max p.2 q.2 - min p.2 q.2) ^ 2

/-- `z` lies on the discrete segment from `p` to `q`: collinear
(zero cross product) and inside the segment's bounding box. -/
def onSeg (p q z : Nat × Nat) : Bool :=
  decide (((q.1 : Int) - p.1) * ((z.2 : Int) - p.2) = ((q.2 : Int) - p.2) * ((z.1 : Int) - p.1)) &&
  decide (min p.1 q.1 ≤ z.1) && decide (z.1 ≤ max p.1 q.1) &&
  decide (min p.2 q.2 ≤ z.2) && decide (z.2 ≤ max p.2 q.2)

/-- The votes supporting a candidate segment: the number of edge-grid
foreground cells on it. -/
def votesFor (e : Grid Nat) (p q : Nat × Nat) : Nat :=
  ((allCells e.W e.H).filter fun z => onSeg p q z && decide (e.cell z.1 z.2 ≠ 0)).length

/-- Modelled from the spec: `cv2.HoughLinesP(edges, 1, pi/180, 50,
minLineLength=30, maxLineGap=20)` (lines 103-105) as a voting transform:
the candidate segments between grid cells whose collinear edge-pixel
support meets the vote threshold 50 and whose length is at least 30
pixels (`30² = 900` squared).  The `maxLineGap=20` refinement — which
only subdivides supported segments and can never produce a segment
without supporting edge pixels — is not modelled. -/
def houghSegsP (e : Grid Nat) : List ((Nat × Nat) × (Nat × Nat)) :=
  ((allCells e.W e.H).flatMap fun p => (allCells e.W e.H).map fun q => (p, q)).filter
    fun s => decide (50 ≤ votesFor e s.1 s.2) && decide (900 ≤ segLen2 s.1 s.2)

/-- Line 103 applied to the pipeline's edge grid. -/
def linesStage (img : Grid Nat) : List ((Nat × Nat) × (Nat × Nat)) :=
  houghSegsP (edgesStage img)

/-- `cv2.cvtColor(edges, cv2.COLOR_GRAY2BGR)` (line 108): promote a
single-channel grid to three identical channels. -/
def gray2bgr (g : Grid Nat) : Grid (Nat × Nat × Nat) :=
  ⟨g.W, g.H, fun x y => (g.cell x y, g.cell x y, g.cell x y)⟩

/-- Modelled from the spec: a cell is covered by the thickness-2 drawing
of a segment when its distance to the segment's line is at most 2
(stated on squared integers: `cross² ≤ 4·len²`) and it lies within the
segment's bounding box enlarged by 2. -/
def nearSeg (s : (Nat × Nat) × (Nat × Nat)) (x y : Nat) : Bool :=
  let a := s.1
  let b := s.2
  let cr : Int := ((b.1 : Int) - a.1) * ((y : Int) - a.2) - ((b.2 : Int) - a.2) * ((x : Int) - a.1)
  decide (cr * cr ≤ 4 * ((((b.1 : Int) - a.1)) ^ 2 + (((b.2 : Int) - a.2)) ^ 2)) &&
  decide (min a.1 b.1 ≤ x + 2) && decide (x ≤ max a.1 b.1 + 2) &&
  decide (min a.2 b.2 ≤ y + 2) && decide (y ≤ max a.2 b.2 + 2)

/-- Lines 111-116: draw every detected segment over the base image in
green `(0, 255, 0)` with thickness 2. -/
def drawSegs (base : Grid (Nat × Nat × Nat)) (segs : List ((Nat × Nat) × (Nat × Nat))) :
    Grid (Nat × Nat × Nat) :=
  ⟨base.W, base.H, fun x y =>
    if segs.any (fun s => nearSeg s x y) then (0, 255, 0) else base.cell x y⟩

/-- `canny` (lines 77-121) as a grid-to-grid core, returning the
visualization grid and the diagnostic messages printed when `debug` is
set.  The input is taken single-channel (the source's line 79-82
grayscale conversion is the identity on single-channel inputs, and
`process_map`'s output — the only caller's argument — is
single-channel). -/
def canny (img : Grid Nat) (debug : Bool) : Grid (Nat × Nat × Nat) × List String :=
  let edges := edgesStage img
  let lines := linesStage img
  (drawSegs (gray2bgr edges) lines,
   if debug then
     (if lines.isEmpty then ["No lines detected"]
      else ["Detected " ++ toString lines.length ++ " lines"])
   else [])

/- ----------------------------------------------------------------- -/
/- Concrete grids used in counterexamples and witnesses.             -/
/- ----------------------------------------------------------------- -/

/-- A 5×5 binary grid, OCCUPIED everywhere except a single FREE cell at
the centre `(2, 2)`: a 1×1 hole. -/
def gHole : Grid Bool :=
  ⟨5, 5, fun x y => !((x == 2) && (y == 2))⟩

/-- A 5×1 binary grid with a single OCCUPIED cell at `(2, 0)` and all
other cells FREE. -/
def gSpeck : Grid Bool :=
  ⟨5, 1, fun x y => (x == 2) && (y == 0)⟩

/-- An 8×1 binary grid, FREE at `(0, 0)` and OCCUPIED at `(1..7, 0)`:
a wall touching free space at its left end. -/
def gWall : Grid Bool :=
  ⟨8, 1, fun x _ => !(x == 0)⟩

/- ----------------------------------------------------------------- -/
/- Helper lemmas.                                                    -/
/- ----------------------------------------------------------------- -/
-- helper lemmas draft

theorem kernelSizes_mem (M k : Nat) :
    k ∈ kernelSizes M ↔ Odd k ∧ 3 ≤ k ∧ k < 2 * M := by
  simp only [kernelSizes, pythonRange, List.mem_map, List.mem_range]
  constructor
  · rintro ⟨i, hi, rfl⟩
    exact ⟨⟨i + 1, by omega⟩, by omega, by omega⟩
  · rintro ⟨⟨m, hm⟩, h3, hlt⟩
    exact ⟨m - 1, by omega, by omega⟩

theorem kernelSizes_nodup (M : Nat) : (kernelSizes M).Nodup := by
  refine List.Nodup.map ?_ (List.nodup_range _)
  intro a b h
  simp only at h
  omega

theorem kernelSizes_lt (M k : Nat) (h : k ∈ kernelSizes M) : k < M * 2 := by
  have := (kernelSizes_mem M k).mp h
  omega

theorem sweepGo_mono (M : Nat) (inv : Grid Bool) :
    ∀ (ks : List Nat) (r : Nat → Nat → Bool) (x y : Nat),
      r x y = true → sweepGo M inv ks r x y = true := by
  intro ks
  induction ks with
  | nil => intro r x y h; simpa [sweepGo] using h
  | cons k ks ih =>
    intro r x y h
    simp only [sweepGo]
    split
    · simp [h]
    · exact ih _ x y (by simp [h])

theorem sweepGo_eq_nb (M : Nat) (inv : Grid Bool) :
    ∀ (ks : List Nat) (r : Nat → Nat → Bool),
      (∀ k ∈ ks, k < M * 2) →
      ∀ x y, sweepGo M inv ks r x y = sweepNB M inv ks r x y := by
  intro ks
  induction ks with
  | nil => intro r _ x y; simp [sweepGo, sweepNB]
  | cons k ks ih =>
    intro r h x y
    have hk : k < M * 2 := h k (List.mem_cons_self k ks)
    simp only [sweepGo, sweepNB, List.foldl_cons]
    rw [if_neg (by omega)]
    exact ih _ (fun k2 hk2 => h k2 (List.mem_cons_of_mem _ hk2)) x y

theorem fillGaps_cell_mono (M : Nat) (g : Grid Bool) (x y : Nat)
    (h : (fillGaps M g).cell x y = true) : g.cell x y = true := by
  by_contra hg
  have hg2 : g.cell x y = false := by
    cases hcase : g.cell x y
    · rfl
    · exact absurd hcase hg
  have hinv : (notGrid g).cell x y = true := by simp [notGrid, hg2]
  have hs := sweepGo_mono M (notGrid g) (kernelSizes M) (notGrid g).cell x y hinv
  simp only [fillGaps] at h
  rw [hs] at h
  simp at h

theorem fillGaps_free_mono (M : Nat) (g : Grid Bool) (x y : Nat)
    (h : g.cell x y = false) : (fillGaps M g).cell x y = false := by
  cases hcase : (fillGaps M g).cell x y
  · rfl
  · rw [fillGaps_cell_mono M g x y hcase] at h
    exact h.symm ▸ rfl

theorem medianBlur3_W (g : Grid Nat) : (medianBlur3 g).W = g.W := rfl

theorem medianBlur3_H (g : Grid Nat) : (medianBlur3 g).H = g.H := rfl

theorem binarize_W (g : Grid Nat) : (binarize g).W = g.W := rfl

theorem binarize_H (g : Grid Nat) : (binarize g).H = g.H := rfl

theorem toBoolG_W (g : Grid Nat) : (toBoolG g).W = g.W := rfl

theorem toBoolG_H (g : Grid Nat) : (toBoolG g).H = g.H := rfl

theorem closeMorph_W (b : Grid Bool) : (closeMorph b).W = b.W := rfl

theorem closeMorph_H (b : Grid Bool) : (closeMorph b).H = b.H := rfl

theorem fillGaps_W (M : Nat) (b : Grid Bool) : (fillGaps M b).W = b.W := rfl

theorem fillGaps_H (M : Nat) (b : Grid Bool) : (fillGaps M b).H = b.H := rfl

theorem gaussianBlur5_W (g : Grid Nat) : (gaussianBlur5 g).W = g.W := rfl

theorem gaussianBlur5_H (g : Grid Nat) : (gaussianBlur5 g).H = g.H := rfl

theorem edgesStage_W (g : Grid Nat) : (edgesStage g).W = g.W := rfl

theorem edgesStage_H (g : Grid Nat) : (edgesStage g).H = g.H := rfl

theorem gray2bgr_W (g : Grid Nat) : (gray2bgr g).W = g.W := rfl

theorem gray2bgr_H (g : Grid Nat) : (gray2bgr g).H = g.H := rfl

theorem drawSegs_W (b : Grid (Nat × Nat × Nat)) (s : List ((Nat × Nat) × (Nat × Nat))) :
    (drawSegs b s).W = b.W := rfl

theorem drawSegs_H (b : Grid (Nat × Nat × Nat)) (s : List ((Nat × Nat) × (Nat × Nat))) :
    (drawSegs b s).H = b.H := rfl

theorem blur_const_cell (W H c x y : Nat) :
    (gaussianBlur5 (constGrid W H c)).cell x y = c := by
  simp [gaussianBlur5, gauss5, sampleR, constGrid]
  omega

theorem sample_blur_const (W H c : Nat) (a b : Int) :
    sampleR (gaussianBlur5 (constGrid W H c)) a b = c := by
  simp only [sampleR]
  exact blur_const_cell W H c _ _

theorem gradX_blur_const (W H c x y : Nat) :
    gradX (gaussianBlur5 (constGrid W H c)) x y = 0 := by
  simp [gradX, sobelXs, sample_blur_const]

theorem gradY_blur_const (W H c x y : Nat) :
    gradY (gaussianBlur5 (constGrid W H c)) x y = 0 := by
  simp [gradY, sobelYs, sample_blur_const]

theorem mag_blur_const (W H c x y : Nat) :
    magAt (gaussianBlur5 (constGrid W H c)) x y = 0 := by
  simp [magAt, gradX_blur_const, gradY_blur_const]

theorem strongCells_blur_const (W H c : Nat) :
    strongCells (gaussianBlur5 (constGrid W H c)) = [] := by
  simp [strongCells, mag_blur_const]

theorem growOnce_nil (F : List (Nat × Nat)) : growOnce F [] = [] := by
  simp [growOnce]

theorem compIter_nil (F : List (Nat × Nat)) : ∀ n, compIter F n [] = [] := by
  intro n
  induction n with
  | zero => rfl
  | succ n ih => simp [compIter, growOnce_nil, ih]

theorem edgeSet_blur_const (W H c : Nat) :
    edgeSetOf (gaussianBlur5 (constGrid W H c)) = [] := by
  simp [edgeSetOf, strongCells_blur_const, compIter_nil]

theorem edges_stage_const (W H c x y : Nat) :
    (edgesStage (constGrid W H c)).cell x y = 0 := by
  simp [edgesStage, edgesImg, edgeSet_blur_const]

theorem votes_const (W H c : Nat) (p q : Nat × Nat) :
    votesFor (edgesStage (constGrid W H c)) p q = 0 := by
  simp [votesFor, edges_stage_const]

theorem lines_const (W H c : Nat) : linesStage (constGrid W H c) = [] := by
  simp [linesStage, houghSegsP, votes_const]

theorem vis_const (W H c : Nat) (d : Bool) (x y : Nat) :
    ((canny (constGrid W H c) d).1).cell x y = (0, 0, 0) := by
  simp [canny, drawSegs, lines_const, gray2bgr, edges_stage_const]

/- ----------------------------------------------------------------- -/
/- Claim theorems.                                                   -/
/- ----------------------------------------------------------------- -/

/-- C1, counterexample: on the 5×5 grid `gHole`, the FREE hole at the
centre `(2, 2)` has bounding box 1×1 and area 1, well within the gate
for `maxGapPixels = 4`, yet the gap-fill stage leaves it FREE — the
claim's "fully filled" half is false. -/
theorem gapFill_sizeGate_cex :
    (2, 2) ∈ holeAt gHole (2, 2) ∧
    max (bboxW (holeAt gHole (2, 2))) (bboxH (holeAt gHole (2, 2))) ≤ 4 ∧
    (holeAt gHole (2, 2)).length ≤ 4 * 4 ∧
    (fillGaps 4 gHole).cell 2 2 = false :=
  ⟨by decide, by decide, by decide, by decide⟩

/-- C1 (amended): for maxGapPixels > 0, the gap-fill stage never
converts a FREE cell to OCCUPIED, so every hole — whether its bounding
box exceeds the gate or passes it — is left unfilled. -/
theorem gapFill_c1_free_preserved (M : Nat) (g : Grid Bool) (x y : Nat)
    (_hM : 0 < M) (_hx : x < g.W) (_hy : y < g.H)
    (h : g.cell x y = false) : (fillGaps M g).cell x y = false :=
  fillGaps_free_mono M g x y h

/-- C1, witness for `gapFill_c1_free_preserved` at `gHole`, `(2, 2)`. -/
theorem gapFill_c1_free_preserved_w :
    0 < 4 ∧ gHole.cell 2 2 = false ∧ (fillGaps 4 gHole).cell 2 2 = false :=
  ⟨by decide, by decide,
   gapFill_c1_free_preserved 4 gHole 2 2 (by decide) (by decide) (by decide) (by decide)⟩

/-- C2, counterexample: on the 5×1 grid `gSpeck` the OCCUPIED cell
`(2, 0)` flips to FREE during gap filling, so the result is not a
superset of the pre-fill OCCUPIED cells. -/
theorem gapFill_monotone_cex :
    gSpeck.cell 2 0 = true ∧ (fillGaps 4 gSpeck).cell 2 0 = false :=
  ⟨by decide, by decide⟩

/-- C2 (amended): the OCCUPIED set of the gap-fill result is a subset of
the pre-fill OCCUPIED set — the stage only ever flips OCCUPIED cells to
FREE, never FREE to OCCUPIED. -/
theorem gapFill_c2_occupied_subset (M : Nat) (g : Grid Bool) (x y : Nat)
    (_hx : x < g.W) (_hy : y < g.H)
    (h : (fillGaps M g).cell x y = true) : g.cell x y = true :=
  fillGaps_cell_mono M g x y h

/-- C2, witness for `gapFill_c2_occupied_subset` at `gWall`, `(5, 0)`. -/
theorem gapFill_c2_occupied_subset_w :
    (fillGaps 4 gWall).cell 5 0 = true ∧ gWall.cell 5 0 = true :=
  ⟨by decide, gapFill_c2_occupied_subset 4 gWall 5 0 (by decide) (by decide) (by decide)⟩

/-- C3, counterexample: on the 8×1 grid `gWall` (with
`maxGapPixels = 4`) the first pass frees cells `(1, 0)` and `(2, 0)`;
feeding its output back in, the second pass frees `(3, 0)` and
`(4, 0)` as well, so the second pass is not the identity on the first
pass's result. -/
theorem gapFill_idem_cex :
    (fillGaps 4 gWall).cell 3 0 = true ∧
    (fillGaps 4 (fillGaps 4 gWall)).cell 3 0 = false :=
  ⟨by decide, by decide⟩

/-- C3 (amended): a second gap-fill pass with the same parameters may
erase further OCCUPIED cells, but never restores any: its OCCUPIED set
is a subset of the first pass's. -/
theorem gapFill_c3_second_pass_subset (M : Nat) (g : Grid Bool) (x y : Nat)
    (h : (fillGaps M (fillGaps M g)).cell x y = true) :
    (fillGaps M g).cell x y = true :=
  fillGaps_cell_mono M (fillGaps M g) x y h

/-- C3, witness for `gapFill_c3_second_pass_subset` at `gWall`, `(6, 0)`. -/
theorem gapFill_c3_second_pass_subset_w :
    (fillGaps 4 (fillGaps 4 gWall)).cell 6 0 = true ∧ (fillGaps 4 gWall).cell 6 0 = true :=
  ⟨by decide, gapFill_c3_second_pass_subset 4 gWall 6 0 (by decide)⟩

/-- C4, counterexample: the sweep of line 47 does not run up to and
including `2*maxGapPixels + 1`.  For `maxGapPixels = 1` it runs no
iteration at all (the claim demands the single height 3), and for
`maxGapPixels = 4` it evaluates `[3, 5, 7]`, not `[3, 5, 7, 9]`. -/
theorem gapFill_sweep_range_cex :
    kernelSizes 1 ≠ sweepClaimed 1 ∧ kernelSizes 1 = [] ∧ sweepClaimed 1 = [3] ∧
    kernelSizes 4 = [3, 5, 7] ∧ sweepClaimed 4 = [3, 5, 7, 9] :=
  ⟨by decide, by decide, by decide, by decide, by decide⟩

/-- C4 (amended): the sweep evaluates exactly the odd kernel heights
`3, 5, ...` strictly below `2*maxGapPixels + 1` — that is, up to
`2*maxGapPixels - 1` when `maxGapPixels ≥ 2` and none when
`maxGapPixels ≤ 1` — each exactly once (the list has no duplicates),
and the result accumulates monotonically through the sweep via logical
OR: a cell set in the accumulator is still set after any further
kernel heights are processed. -/
theorem gapFill_c4_sweep (M : Nat) :
    (∀ k, k ∈ kernelSizes M ↔ Odd k ∧ 3 ≤ k ∧ k < 2 * M) ∧
    (kernelSizes M).Nodup ∧
    (∀ (inv : Grid Bool) (ks : List Nat) (r : Nat → Nat → Bool) (x y : Nat),
      r x y = true → sweepGo M inv ks r x y = true) :=
  ⟨fun k => kernelSizes_mem M k, kernelSizes_nodup M,
   fun inv ks r x y h => sweepGo_mono M inv ks r x y h⟩

/-- C4, witness for `gapFill_c4_sweep` at `M = 4`: 5 is a swept height,
and the sweep on `[3]` keeps an already-set accumulator cell set. -/
theorem gapFill_c4_sweep_w :
    5 ∈ kernelSizes 4 ∧
    sweepGo 4 (notGrid gSpeck) [3] (fun _ _ => true) 0 0 = true :=
  ⟨((gapFill_c4_sweep 4).1 5).mpr ⟨⟨2, by decide⟩, by decide, by decide⟩,
   (gapFill_c4_sweep 4).2.2 (notGrid gSpeck) [3] (fun _ _ => true) 0 0 rfl⟩

/-- C5: with `maxGapPixels ≤ 0` the kernel-height range is empty, the
sweep never runs, and the stage returns the closed binary grid
unchanged (same dimensions, same cells; double inversion is the
identity).  Being a total function, it raises no error. -/
theorem gapFill_c5_noop (M : Nat) (g : Grid Bool) (hM : M ≤ 0) :
    (fillGaps M g).W = g.W ∧ (fillGaps M g).H = g.H ∧
    ∀ x y, (fillGaps M g).cell x y = g.cell x y := by
  have hM0 : M = 0 := Nat.le_zero.mp hM
  subst hM0
  refine ⟨rfl, rfl, fun x y => ?_⟩
  have hks : kernelSizes 0 = [] := rfl
  simp [fillGaps, hks, sweepGo, notGrid]

/-- C5, witness for `gapFill_c5_noop` at `M = 0`, `gSpeck`, `(2, 0)`. -/
theorem gapFill_c5_noop_w :
    (0 : Nat) ≤ 0 ∧ (fillGaps 0 gSpeck).cell 2 0 = gSpeck.cell 2 0 :=
  ⟨Nat.le_refl 0, (gapFill_c5_noop 0 gSpeck (Nat.le_refl 0)).2.2 2 0⟩

/-- C6, counterexample: a cell of intensity exactly 1 is at-or-above
the threshold 1, yet `THRESH_BINARY_INV` maps it to 255 (OCCUPIED),
not to 0 (FREE) as the claim states. -/
theorem binarize_threshold_cex :
    1 ≤ (constGrid 1 1 1).cell 0 0 ∧
    (binarize (constGrid 1 1 1)).cell 0 0 = 255 ∧
    (binarize (constGrid 1 1 1)).cell 0 0 ≠ 0 :=
  ⟨by decide, by decide, by decide⟩

/-- C6 (amended): binarization maps a cell with intensity at or below
the threshold 1 to OCCUPIED (255) and a cell with intensity strictly
above 1 to FREE (0). -/
theorem binarize_c6_rule (g : Grid Nat) (x y : Nat) :
    (g.cell x y ≤ 1 → (binarize g).cell x y = 255) ∧
    (1 < g.cell x y → (binarize g).cell x y = 0) := by
  refine ⟨fun h => ?_, fun h => ?_⟩
  · simp only [binarize]
    rw [if_neg (by omega)]
  · simp only [binarize]
    rw [if_pos h]

/-- C6, witness for `binarize_c6_rule` on a constant-0 grid. -/
theorem binarize_c6_rule_w :
    (constGrid 1 1 0).cell 0 0 ≤ 1 ∧ (binarize (constGrid 1 1 0)).cell 0 0 = 255 :=
  ⟨by decide, (binarize_c6_rule (constGrid 1 1 0) 0 0).1 (by decide)⟩

/-- C7: the trailing `if kernel_size >= MAX_GAP_PIXELS * 2: break` never
skips a kernel height — every height in `range(3, 2*M+1, 2)` is odd and
at most `2*M - 1`, so the condition never fires mid-list: the loop with
the break computes the same result grid as the plain fold with the
break removed, and the height list has no duplicates (each kernel size
is evaluated exactly once). -/
theorem gapFill_c7_break_equiv (M : Nat) (inv : Grid Bool) (r : Nat → Nat → Bool) :
    (∀ x y, sweepGo M inv (kernelSizes M) r x y = sweepNB M inv (kernelSizes M) r x y) ∧
    (kernelSizes M).Nodup :=
  ⟨fun x y =>
    sweepGo_eq_nb M inv (kernelSizes M) r (fun k hk => kernelSizes_lt M k hk) x y,
   kernelSizes_nodup M⟩

/-- C8: on any constant (all-FREE, boundary-free) input grid the edge
grid is all zero, no line segment is detected, and every cell of the
returned visualization grid is black `(0, 0, 0)` — no line is drawn. -/
theorem canny_c8_blank (W H c : Nat) :
    (∀ x y, (edgesStage (constGrid W H c)).cell x y = 0) ∧
    linesStage (constGrid W H c) = [] ∧
    (∀ (d : Bool) x y, ((canny (constGrid W H c) d).1).cell x y = (0, 0, 0)) :=
  ⟨fun x y => edges_stage_const W H c x y, lines_const W H c,
   fun d x y => vis_const W H c d x y⟩

/-- C9: the debug flag guards only diagnostic strings; the grids
returned by `process_map` and `canny` are syntactically independent of
it. -/
theorem pipeline_c9_debug_noninterference (img : Grid Nat) (d1 d2 : Bool) :
    (processMap img d1).1 = (processMap img d2).1 ∧
    (canny img d1).1 = (canny img d2).1 :=
  ⟨rfl, rfl⟩

/-- C10: every stage preserves grid dimensions: the gap-filled grid of
`process_map` and the visualization grid of `canny` have the input's
width and height, and so does each intermediate stage. -/
theorem pipeline_c10_dims (img : Grid Nat) (d : Bool) :
    ((processMap img d).1.W = img.W ∧ (processMap img d).1.H = img.H) ∧
    ((canny img d).1.W = img.W ∧ (canny img d).1.H = img.H) ∧
    (∀ gN : Grid Nat,
      (medianBlur3 gN).W = gN.W ∧ (medianBlur3 gN).H = gN.H ∧
      (binarize gN).W = gN.W ∧ (binarize gN).H = gN.H ∧
      (gaussianBlur5 gN).W = gN.W ∧ (gaussianBlur5 gN).H = gN.H ∧
      (edgesStage gN).W = gN.W ∧ (edgesStage gN).H = gN.H) ∧
    (∀ (gB : Grid Bool) (M : Nat),
      (closeMorph gB).W = gB.W ∧ (closeMorph gB).H = gB.H ∧
      (fillGaps M gB).W = gB.W ∧ (fillGaps M gB).H = gB.H) := by
  refine ⟨⟨?_, ?_⟩, ⟨?_, ?_⟩, fun gN => ⟨rfl, rfl, rfl, rfl, rfl, rfl, rfl, rfl⟩,
    fun gB M => ⟨rfl, rfl, rfl, rfl⟩⟩
  · simp only [processMap, fillGaps_W, closeMorph_W, toBoolG_W, binarize_W, medianBlur3_W]
  · simp only [processMap, fillGaps_H, closeMorph_H, toBoolG_H, binarize_H, medianBlur3_H]
  · simp only [canny, drawSegs_W, gray2bgr_W, edgesStage_W]
  · simp only [canny, drawSegs_H, gray2bgr_H, edgesStage_H]
